import Mathlib

/-!
# Verification of the yaLLMa3 Studio sidecar supervisor

Shallow embedding of `src-tauri/src/sidecar.rs` and the sidecar-related
parts of `src-tauri/src/lib.rs`.  Filesystem paths are modelled as lists of
components; the ambient conditions a call observes (current directory,
resource directory, existence checks, syscall outcomes) are packaged into
explicit environment records, and each Tauri command becomes a pure function
from an environment and the shared handle state to an outcome record.
The `Mutex` around the handle serializes the operations, so each operation
is embedded as one atomic step on the state.
-/

namespace Yallma3

/-- A filesystem path, as its list of components below the root. -/
abbrev FsPath := List String

/-- `std::path::Path::parent`: `none` at the root, else drop the last
component. -/
def pathParent (p : FsPath) : Option FsPath :=
  if p = [] then none else some p.dropLast

/-- How a child stream is configured on a `std::process::Command`.
`spawn` without an explicit configuration leaves the stream inherited. -/
inductive StdioCfg
  | inherit
  | piped
deriving DecidableEq, Repr

/-- The observable configuration of a `std::process::Command` at the moment
`spawn()` is invoked: program, arguments, extra environment entries, and the
stdio configuration of the two output streams. -/
structure CommandConfig where
  program : FsPath
  args : List FsPath
  envs : List (String × FsPath)
  stdoutCfg : StdioCfg
  stderrCfg : StdioCfg
deriving DecidableEq, Repr

/-- `SidecarState.process`: the single mutable handle, `none` when no child
is owned, `some pid` when one is. -/
abbrev SidecarHandle := Option Nat

/-- The fixed AppImage fallback location
`/usr/lib/yaLLMa3 Studio/_up_/yaLLMa3API/index.js` (sidecar.rs line 57). -/
def appimagePath : FsPath :=
  ["usr", "lib", "yaLLMa3 Studio", "_up_", "yaLLMa3API", "index.js"]

/-- Path resolution performed by `spawn_yallma3api` (sidecar.rs lines 31-75).

* `debugAssertions` — the value of `cfg!(debug_assertions)` (build mode);
* `cwd` — the result of `std::env::current_dir()` (`none` = the call errored);
* `resourceDir` — the result of `app_handle.path().resource_dir()`;
* `resourceSidecarExists` — whether `<resourceDir>/yaLLMa3API/index.js`
  exists on disk;
* `appimageExists` — whether the fixed AppImage path exists on disk.

In development mode: `<parent-of-cwd (or cwd)>/yaLLMa3API/index.js`.
In production: the resource-directory candidate if it exists, else the
AppImage path if it exists, else the resource-directory candidate unchecked,
else an error. -/
def resolveSidecarPath (debugAssertions : Bool) (cwd : Option FsPath)
    (resourceDir : Option FsPath) (resourceSidecarExists appimageExists : Bool) :
    Except String FsPath :=
  if debugAssertions then
    match cwd with
    | none => .error "Failed to get current directory"
    | some dir => .ok (((pathParent dir).getD dir) ++ ["yaLLMa3API", "index.js"])
  else
    let fromResource : Option FsPath :=
      match resourceDir with
      | some rd =>
          if resourceSidecarExists then some (rd ++ ["yaLLMa3API", "index.js"])
          else none
      | none => none
    let fromAppimage : Option FsPath :=
      match fromResource with
      | some p => some p
      | none => if appimageExists then some appimagePath else none
    let finalCandidate : Option FsPath :=
      match fromAppimage with
      | some p => some p
      | none => resourceDir.map (fun rd => rd ++ ["yaLLMa3API", "index.js"])
    match finalCandidate with
    | some p => .ok p
    | none => .error "Could not find yaLLMa3API/index.js in any expected location"

/-- The command built at sidecar.rs lines 90-93:
`Command::new("node").arg(sidecar_path).env("YA_API_LOG_DIR", app_data_dir)`.
No `.stdout(...)`/`.stderr(...)` configuration is applied, so both streams
stay inherited. -/
def spawnCommand (sidecarPath : FsPath) (appDataDir : FsPath) : CommandConfig :=
  { program := ["node"]
    args := [sidecarPath]
    envs := [("YA_API_LOG_DIR", appDataDir)]
    stdoutCfg := .inherit
    stderrCfg := .inherit }

/-- Environment observed by one `spawn_yallma3api` invocation. -/
structure SpawnEnv where
  debugAssertions : Bool
  cwd : Option FsPath
  resourceDir : Option FsPath
  resourceSidecarExists : Bool
  appimageExists : Bool
  /-- whether `Command::new("node").arg("--version").output()` succeeds -/
  nodeAvailable : Bool
  /-- result of `app_handle.path().app_data_dir()` -/
  appDataDir : Option FsPath
  /-- outcome of the spawn syscall: `some pid` on success, `none` on failure -/
  spawnResult : Option Nat
deriving DecidableEq, Repr

/-- Outcome of one `spawn_yallma3api` invocation: the handle state after the
call, the returned `Result<String, String>`, the number of spawn syscalls
issued, and the command configurations of those syscalls. -/
structure SpawnOutcome where
  state : SidecarHandle
  result : Except String String
  spawnSyscalls : Nat
  commands : List CommandConfig

/-- `spawn_yallma3api` (sidecar.rs lines 19-99), as one atomic step under
the handle mutex. -/
def spawn_yallma3api (env : SpawnEnv) (st : SidecarHandle) : SpawnOutcome :=
  if st.isSome then
    ⟨st, .ok "yaLLMa3API is already running", 0, []⟩
  else
    match resolveSidecarPath env.debugAssertions env.cwd env.resourceDir
        env.resourceSidecarExists env.appimageExists with
    | .error e => ⟨st, .error e, 0, []⟩
    | .ok sidecarPath =>
      if env.nodeAvailable = false then
        ⟨st, .error "Node.js is not available in PATH", 0, []⟩
      else
        match env.appDataDir with
        | none => ⟨st, .error "Failed to get app data directory", 0, []⟩
        | some dataDir =>
          match env.spawnResult with
          | none =>
              ⟨st, .error "Failed to spawn yaLLMa3API", 1,
                [spawnCommand sidecarPath dataDir]⟩
          | some pid =>
              ⟨some pid, .ok "yaLLMa3API spawned successfully", 1,
                [spawnCommand sidecarPath dataDir]⟩

/-- Outcome of one `kill_yallma3api` invocation. -/
structure KillOutcome where
  state : SidecarHandle
  result : Except String String
  killSyscalls : Nat

/-- `kill_yallma3api` (sidecar.rs lines 101-111): `process_guard.take()`
first (clearing the handle unconditionally when it was populated), then
`child.kill()`, whose failure is returned as an error string.
`killOk` is whether the kill syscall succeeds. -/
def kill_yallma3api (killOk : Bool) (st : SidecarHandle) : KillOutcome :=
  match st with
  | some _ =>
      if killOk then ⟨none, .ok "yaLLMa3API killed successfully", 1⟩
      else ⟨none, .error "Failed to kill yaLLMa3API", 1⟩
  | none => ⟨none, .ok "yaLLMa3API is not running", 0⟩

/-- Outcome of `Child::try_wait()` on a populated handle. -/
inductive TryWaitOutcome
  | exited (code : Int)
  | stillRunning
  | reapError
deriving DecidableEq, Repr

/-- Outcome of one `get_yallma3api_status` invocation. -/
structure StatusOutcome where
  state : SidecarHandle
  result : Except String String
  reapSyscalls : Nat

/-- `get_yallma3api_status` (sidecar.rs lines 113-126): borrows the handle
(no `take`), calls `try_wait` when populated, and never changes the handle. -/
def get_yallma3api_status (tw : TryWaitOutcome) (st : SidecarHandle) :
    StatusOutcome :=
  match st with
  | some pid =>
      match tw with
      | .exited code =>
          ⟨some pid, .ok ("yaLLMa3API exited with status: " ++ toString code), 1⟩
      | .stillRunning => ⟨some pid, .ok "yaLLMa3API is running", 1⟩
      | .reapError => ⟨some pid, .error "Failed to check yaLLMa3API status", 1⟩
  | none => ⟨none, .ok "yaLLMa3API is not running", 0⟩

/-- The `#[cfg(target_os = ...)]` compile-time platform choice in lib.rs
lines 59-70. -/
inductive TargetOs
  | linux
  | windows
  | macos
deriving DecidableEq, Repr

/-- The platform-suffixed bundled binary name (lib.rs lines 59-70). -/
def startupBinaryName : TargetOs → String
  | .linux => "index-x86_64-unknown-linux-gnu"
  | .windows => "index-x86_64-pc-windows-msvc.exe"
  | .macos => "index-x86_64-apple-darwin"

/-- Environment observed by the startup auto-start task (lib.rs setup
closure, lines 26-132).  `viteSpawnCore` records the `VITE_SPAWN_CORE`
environment variable as it stands when the host starts (`none` = unset);
it is part of the observable environment whether or not the code reads it.
The task contains two textually duplicated spawn blocks; `spawnResult1` and
`spawnResult2` are the outcomes of the first and second spawn syscalls. -/
structure StartupEnv where
  debugAssertions : Bool
  targetOs : TargetOs
  cwd : Option FsPath
  resourceDir : Option FsPath
  appDataDir : Option FsPath
  spawnResult1 : Option Nat
  spawnResult2 : Option Nat
  viteSpawnCore : Option Bool
deriving DecidableEq, Repr

/-- Path resolution in the startup task (lib.rs lines 37-71): in
development, `<parent-of-cwd (or cwd)>/yaLLMa3API/index.js`; in production,
`<resourceDir>/bin/<platform-suffixed binary>`.  `none` when the
directory lookup failed (the task just returns). -/
def startupResolve (env : StartupEnv) : Option FsPath :=
  if env.debugAssertions then
    env.cwd.map (fun dir =>
      ((pathParent dir).getD dir) ++ ["yaLLMa3API", "index.js"])
  else
    env.resourceDir.map (fun rd => rd ++ ["bin", startupBinaryName env.targetOs])

/-- The command built at lib.rs lines 85-96 (and again at 110-121):
in development `Command::new("node").arg(&executable_path)`, in production
`Command::new(&executable_path)`, each with `YA_API_LOG_DIR` set and no
stdio configuration. -/
def startupSpawnCommand (debugAssertions : Bool) (execPath : FsPath)
    (dataDir : FsPath) : CommandConfig :=
  if debugAssertions then
    { program := ["node"]
      args := [execPath]
      envs := [("YA_API_LOG_DIR", dataDir)]
      stdoutCfg := .inherit
      stderrCfg := .inherit }
  else
    { program := execPath
      args := []
      envs := [("YA_API_LOG_DIR", dataDir)]
      stdoutCfg := .inherit
      stderrCfg := .inherit }

/-- Outcome of the startup auto-start task: handle state afterwards, number
of spawn syscalls issued, their command configurations, and the pids of OS
processes that were created but whose `Child` handle was dropped without
being stored or killed (leaked). -/
structure StartupOutcome where
  state : SidecarHandle
  spawnSyscalls : Nat
  commands : List CommandConfig
  leakedPids : List Nat

/-- The startup auto-start task spawned from `run`'s setup hook (lib.rs
lines 27-132), as one atomic step under the handle mutex.  The source
contains the spawn block twice (lines 84-96 and 98-121): the first
`_spawn_result` binding is shadowed and its `Child` dropped, so a spawn
syscall is issued for each block and only the second result is matched and
stored. -/
def startupTask (env : StartupEnv) (st : SidecarHandle) : StartupOutcome :=
  if st.isSome then ⟨st, 0, [], []⟩
  else
    match startupResolve env with
    | none => ⟨st, 0, [], []⟩
    | some execPath =>
      match env.appDataDir with
      | none => ⟨st, 0, [], []⟩
      | some dataDir =>
        let cmd1 := startupSpawnCommand env.debugAssertions execPath dataDir
        match env.appDataDir with
        | none => ⟨st, 1, [cmd1], env.spawnResult1.toList⟩
        | some dataDir2 =>
          let cmd2 := startupSpawnCommand env.debugAssertions execPath dataDir2
          match env.spawnResult2 with
          | some pid =>
              ⟨some pid, 2, [cmd1, cmd2], env.spawnResult1.toList⟩
          | none => ⟨st, 2, [cmd1, cmd2], env.spawnResult1.toList⟩

/-- Interpreter requirement of a resolved sidecar location: run through the
`node` interpreter, or run the file directly as the program. -/
inductive InterpReq
  | nodeInterp
  | direct
deriving DecidableEq, Repr

/-- A resolved sidecar entry point together with its interpreter
requirement (the spec's `ResolvedPath`). -/
structure Resolved where
  path : FsPath
  interp : InterpReq
deriving DecidableEq, Repr

/-- The `ResolvedPath` used by the GUI-triggered `spawn_yallma3api` command:
its resolution result, always launched via `node` (sidecar.rs line 90). -/
def commandResolved (debugAssertions : Bool) (cwd : Option FsPath)
    (resourceDir : Option FsPath) (resourceSidecarExists appimageExists : Bool) :
    Except String Resolved :=
  (resolveSidecarPath debugAssertions cwd resourceDir resourceSidecarExists
    appimageExists).map (fun p => ⟨p, .nodeInterp⟩)

/-- The `ResolvedPath` used by the startup auto-start: launched via `node`
in development builds and directly in production builds (lib.rs
lines 85-96). -/
def startupResolved (env : StartupEnv) : Option Resolved :=
  (startupResolve env).map (fun p =>
    ⟨p, if env.debugAssertions then .nodeInterp else .direct⟩)

/-! ## Claim theorems -/

/-- C4: `get_yallma3api_status` never mutates the handle: on an empty
handle it returns "not running" with zero reap syscalls; on a populated
handle whose process is still alive it returns "running"; on a populated
handle whose process has exited it reports the exit code and leaves the
handle populated. -/
theorem C4_status_frame (tw : TryWaitOutcome) (st : SidecarHandle) :
    (get_yallma3api_status tw st).state = st ∧
    (st = none →
      (get_yallma3api_status tw st).result = .ok "yaLLMa3API is not running" ∧
      (get_yallma3api_status tw st).reapSyscalls = 0) ∧
    (∀ pid, st = some pid → tw = .stillRunning →
      (get_yallma3api_status tw st).result = .ok "yaLLMa3API is running") ∧
    (∀ pid code, st = some pid → tw = .exited code →
      (get_yallma3api_status tw st).result =
        .ok ("yaLLMa3API exited with status: " ++ toString code)) := by
  cases st <;> cases tw <;> simp [get_yallma3api_status]

/-- Witness for C4 at a live process with pid 3. -/
theorem C4_status_frame_witness :
    (get_yallma3api_status TryWaitOutcome.stillRunning (some 3)).state = some 3 ∧
    (get_yallma3api_status TryWaitOutcome.stillRunning (some 3)).result =
      .ok "yaLLMa3API is running" :=
  ⟨(C4_status_frame TryWaitOutcome.stillRunning (some 3)).1,
   (C4_status_frame TryWaitOutcome.stillRunning (some 3)).2.2.1 3 rfl rfl⟩

/-- C8: `kill_yallma3api` is idempotent: on an empty handle it is a no-op
success ("not running", zero kill syscalls); after a kill that returned
"killed successfully" a second kill returns "not running"; and for every
state two consecutive kills leave the same idle state as one. -/
theorem C8_kill_idempotent (killOk : Bool) (st : SidecarHandle) :
    kill_yallma3api killOk none =
      ⟨none, .ok "yaLLMa3API is not running", 0⟩ ∧
    ((kill_yallma3api killOk st).result = .ok "yaLLMa3API killed successfully" →
      ∀ k, kill_yallma3api k (kill_yallma3api killOk st).state =
        ⟨none, .ok "yaLLMa3API is not running", 0⟩) ∧
    (∀ k, (kill_yallma3api k (kill_yallma3api killOk st).state).state =
      (kill_yallma3api killOk st).state) := by
  cases st <;> cases killOk <;> simp [kill_yallma3api]

/-- Witness for C8: a successful kill of pid 9 followed by a second kill. -/
theorem C8_kill_idempotent_witness :
    kill_yallma3api true
        (kill_yallma3api true (some 9)).state =
      ⟨none, .ok "yaLLMa3API is not running", 0⟩ :=
  (C8_kill_idempotent true (some 9)).2.1 rfl true

/-- C6: when path resolution succeeds but the `node --version` probe fails,
`spawn_yallma3api` returns the interpreter-unavailable error before any
spawn syscall, the handle stays empty, and a subsequent status call reports
"not running". -/
theorem C6_interpreter_probe (env : SpawnEnv) (p : FsPath)
    (hres : resolveSidecarPath env.debugAssertions env.cwd env.resourceDir
      env.resourceSidecarExists env.appimageExists = .ok p)
    (hnode : env.nodeAvailable = false) :
    (spawn_yallma3api env none).result = .error "Node.js is not available in PATH" ∧
    (spawn_yallma3api env none).state = none ∧
    (spawn_yallma3api env none).spawnSyscalls = 0 ∧
    ∀ tw, (get_yallma3api_status tw (spawn_yallma3api env none).state).result =
      .ok "yaLLMa3API is not running" := by
  simp [spawn_yallma3api, hres, hnode, get_yallma3api_status]

/-- Witness for C6: a development-mode environment with no node in PATH. -/
theorem C6_interpreter_probe_witness :
    (spawn_yallma3api ⟨true, some [], none, false, false, false, none, none⟩
        none).result = .error "Node.js is not available in PATH" ∧
    (spawn_yallma3api ⟨true, some [], none, false, false, false, none, none⟩
        none).spawnSyscalls = 0 :=
  ⟨(C6_interpreter_probe ⟨true, some [], none, false, false, false, none, none⟩
      ["yaLLMa3API", "index.js"] rfl rfl).1,
   (C6_interpreter_probe ⟨true, some [], none, false, false, false, none, none⟩
      ["yaLLMa3API", "index.js"] rfl rfl).2.2.1⟩

/-- C10: in development mode, when the current working directory has no
parent, both resolvers fall back to the working directory itself and return
`<cwd>/yaLLMa3API/index.js` without failing. -/
theorem C10_dev_root_cwd (c : FsPath) (env : StartupEnv)
    (rdir : Option FsPath) (re ae : Bool)
    (hpar : pathParent c = none)
    (hdbg : env.debugAssertions = true) (hcwd : env.cwd = some c) :
    resolveSidecarPath true (some c) rdir re ae =
      .ok (c ++ ["yaLLMa3API", "index.js"]) ∧
    startupResolve env = some (c ++ ["yaLLMa3API", "index.js"]) := by
  constructor
  · simp [resolveSidecarPath, hpar]
  · simp [startupResolve, hdbg, hcwd, hpar]

/-- Witness for C10 at the root working directory. -/
theorem C10_dev_root_cwd_witness :
    resolveSidecarPath true (some []) none false false =
      .ok ["yaLLMa3API", "index.js"] ∧
    startupResolve ⟨true, TargetOs.linux, some [], none, none, none, none, none⟩ =
      some ["yaLLMa3API", "index.js"] :=
  C10_dev_root_cwd [] ⟨true, TargetOs.linux, some [], none, none, none, none, none⟩
    none false false rfl rfl rfl

/-- C2 counterexample: a kill whose kill syscall fails returns the error
string, but the handle — populated with pid 5 when the call began — is left
empty, because `process_guard.take()` runs before `child.kill()`.  This
refutes "a populated handle stays populated" on syscall failure. -/
theorem C2_kill_failure_cex :
    (kill_yallma3api false (some 5)).result = .error "Failed to kill yaLLMa3API" ∧
    (kill_yallma3api false (some 5)).state = none ∧
    (kill_yallma3api false (some 5)).state ≠ some 5 :=
  ⟨rfl, rfl, by simp [kill_yallma3api]⟩

/-- C2 amended: on a reap-syscall failure, `get_yallma3api_status` returns
an error string and leaves the handle exactly as found; on a kill-syscall
failure, `kill_yallma3api` returns an error string but the handle has
already been taken and is left empty. -/
theorem C2_syscall_failure_state (st : SidecarHandle) :
    (get_yallma3api_status TryWaitOutcome.reapError st).state = st ∧
    (st ≠ none →
      (get_yallma3api_status TryWaitOutcome.reapError st).result =
        .error "Failed to check yaLLMa3API status") ∧
    (st ≠ none →
      (kill_yallma3api false st).result = .error "Failed to kill yaLLMa3API" ∧
      (kill_yallma3api false st).state = none) := by
  cases st <;> simp [get_yallma3api_status, kill_yallma3api]

/-- Witness for the amended C2 at a handle holding pid 7. -/
theorem C2_syscall_failure_state_witness :
    (get_yallma3api_status TryWaitOutcome.reapError (some 7)).state = some 7 ∧
    (get_yallma3api_status TryWaitOutcome.reapError (some 7)).result =
      .error "Failed to check yaLLMa3API status" ∧
    (kill_yallma3api false (some 7)).state = none :=
  ⟨(C2_syscall_failure_state (some 7)).1,
   (C2_syscall_failure_state (some 7)).2.1 (by simp),
   ((C2_syscall_failure_state (some 7)).2.2 (by simp)).2⟩

/-- C3 counterexample: a successful development-mode spawn issues exactly
one command, and that command leaves both stdout and stderr inherited —
no pipe is configured on either stream, so no drain can exist and no
server.log line is produced by the supervisor. -/
theorem C3_no_capture_cex :
    (spawn_yallma3api ⟨true, some ["home"], none, false, false, true,
        some ["data"], some 42⟩ none).result =
      .ok "yaLLMa3API spawned successfully" ∧
    (spawn_yallma3api ⟨true, some ["home"], none, false, false, true,
        some ["data"], some 42⟩ none).commands =
      [spawnCommand ["yaLLMa3API", "index.js"] ["data"]] ∧
    (spawnCommand ["yaLLMa3API", "index.js"] ["data"]).stdoutCfg ≠ StdioCfg.piped ∧
    (spawnCommand ["yaLLMa3API", "index.js"] ["data"]).stderrCfg ≠ StdioCfg.piped :=
  ⟨rfl, rfl, by simp [spawnCommand], by simp [spawnCommand]⟩

/-- C3 amended: every spawn syscall issued by `spawn_yallma3api` runs
`node` on the resolved script with `YA_API_LOG_DIR` set to the app data
directory and both output streams inherited: the supervisor itself captures
no pipes, detaches no drains, and writes no log file — output persistence
is delegated to the child through `YA_API_LOG_DIR`. -/
theorem C3_spawn_no_capture (env : SpawnEnv) (st : SidecarHandle) :
    ∀ c ∈ (spawn_yallma3api env st).commands,
      c.program = ["node"] ∧
      c.stdoutCfg = StdioCfg.inherit ∧
      c.stderrCfg = StdioCfg.inherit ∧
      ∃ d, env.appDataDir = some d ∧ c.envs = [("YA_API_LOG_DIR", d)] := by
  intro c hc
  obtain ⟨dbg, cwd, rd, re, ae, node, dataDir, sp⟩ := env
  cases st <;>
    cases hres : resolveSidecarPath dbg cwd rd re ae <;>
      cases node <;> cases dataDir <;> cases sp <;>
        simp_all [spawn_yallma3api, spawnCommand]

/-- Witness for the amended C3 on a successful development-mode spawn. -/
theorem C3_spawn_no_capture_witness :
    (spawnCommand ["yaLLMa3API", "index.js"] ["data"]).program = ["node"] ∧
    (spawnCommand ["yaLLMa3API", "index.js"] ["data"]).stdoutCfg =
      StdioCfg.inherit :=
  ⟨(C3_spawn_no_capture
      ⟨true, some ["home"], none, false, false, true, some ["data"], some 42⟩
      none (spawnCommand ["yaLLMa3API", "index.js"] ["data"]) (by simp
        [spawn_yallma3api, resolveSidecarPath, pathParent])).1,
   (C3_spawn_no_capture
      ⟨true, some ["home"], none, false, false, true, some ["data"], some 42⟩
      none (spawnCommand ["yaLLMa3API", "index.js"] ["data"]) (by simp
        [spawn_yallma3api, resolveSidecarPath, pathParent])).2.1⟩

/-- C5 counterexample: in packaged mode, when the resource-directory lookup
fails and the AppImage fallback does not exist, resolution fails outright at
this stage with a could-not-find error — refuting "resolution at this stage
never fails outright". -/
theorem C5_resolution_can_fail_cex :
    resolveSidecarPath false none none false false =
      .error "Could not find yaLLMa3API/index.js in any expected location" := rfl

/-- C5 amended: in packaged mode, when the resource-directory lookup
succeeds the candidates are tried in order — existing resource path first,
then existing AppImage fallback, then the resource path unchecked — and
resolution never fails; when the lookup fails, the AppImage path is used if
it exists and otherwise resolution fails at this stage. -/
theorem C5_packaged_resolution_order (cwd : Option FsPath) (rd : FsPath)
    (ae : Bool) :
    resolveSidecarPath false cwd (some rd) true ae =
      .ok (rd ++ ["yaLLMa3API", "index.js"]) ∧
    resolveSidecarPath false cwd (some rd) false true = .ok appimagePath ∧
    resolveSidecarPath false cwd (some rd) false false =
      .ok (rd ++ ["yaLLMa3API", "index.js"]) ∧
    (∀ re, resolveSidecarPath false cwd none re true = .ok appimagePath) ∧
    (∀ re, resolveSidecarPath false cwd none re false =
      .error "Could not find yaLLMa3API/index.js in any expected location") := by
  refine ⟨?_, rfl, rfl, ?_, ?_⟩
  · cases ae <;> rfl
  · intro re; cases re <;> rfl
  · intro re; cases re <;> rfl

/-- C7 counterexample: with `VITE_SPAWN_CORE` set to `false` in the
environment, the startup task still attempts the spawn — it issues two
spawn syscalls and stores a child — refuting "the host performs no startup
spawn at all". -/
theorem C7_vite_gate_cex :
    (startupTask ⟨true, TargetOs.linux, some [], none, some ["data"],
        some 100, some 101, some false⟩ none).spawnSyscalls = 2 ∧
    (startupTask ⟨true, TargetOs.linux, some [], none, some ["data"],
        some 100, some 101, some false⟩ none).state = some 101 :=
  ⟨rfl, rfl⟩

/-- C7 amended: the startup auto-start is unconditional — the startup task
never reads `VITE_SPAWN_CORE` (its outcome is invariant under any value of
the variable), and whenever the handle is empty and the directory lookups
succeed the spawn is attempted. -/
theorem C7_startup_unconditional (env : StartupEnv) (v : Option Bool)
    (st : SidecarHandle) :
    startupTask { env with viteSpawnCore := v } st = startupTask env st ∧
    (∀ p d, st = none → startupResolve env = some p →
      env.appDataDir = some d → (startupTask env st).spawnSyscalls ≠ 0) := by
  obtain ⟨dbg, os, cwd, rd, dd, s1, s2, vc⟩ := env
  constructor
  · rfl
  · intro p d hst hp hd
    subst hst
    simp only at hp hd
    subst hd
    cases s2 <;> simp [startupTask, hp]

/-- Witness for the amended C7: the startup task spawns from an empty
handle in a resolvable development environment, whatever
`VITE_SPAWN_CORE` holds. -/
theorem C7_startup_unconditional_witness :
    (startupTask ⟨true, TargetOs.linux, some [], none, some ["data"],
        some 100, some 101, some true⟩ none).spawnSyscalls ≠ 0 :=
  (C7_startup_unconditional
      ⟨true, TargetOs.linux, some [], none, some ["data"],
        some 100, some 101, some true⟩ none none).2
    ["yaLLMa3API", "index.js"] ["data"] rfl rfl rfl

/-- C9 counterexample: in a packaged build the two start paths resolve
different `ResolvedPath`s with different interpreter requirements — the
auto-start resolves the platform-suffixed native binary run directly, while
the GUI spawn command resolves the interpreter script run via node — so the
interpreter-script mode and the native-binary mode are both active in one
build. -/
theorem C9_mixed_modes_cex :
    startupResolved ⟨false, TargetOs.linux, none, some ["res"], none,
        none, none, none⟩ =
      some ⟨["res", "bin", "index-x86_64-unknown-linux-gnu"], InterpReq.direct⟩ ∧
    commandResolved false none (some ["res"]) true false =
      .ok ⟨["res", "yaLLMa3API", "index.js"], InterpReq.nodeInterp⟩ ∧
    Resolved.mk ["res", "bin", "index-x86_64-unknown-linux-gnu"] InterpReq.direct ≠
      Resolved.mk ["res", "yaLLMa3API", "index.js"] InterpReq.nodeInterp :=
  ⟨rfl, rfl, by decide⟩

/-- C9 amended: in a development build both start paths resolve the same
path with the same node interpreter requirement; in a packaged build the
auto-start resolves `<resourceDir>/bin/<platform-suffixed binary>` run
directly while the GUI spawn command resolves the interpreter-script path
run via node — the two strategies coexist in a packaged build. -/
theorem C9_build_mode_strategies (c rd : FsPath) (env : StartupEnv)
    (re ae : Bool) (cwd rdir : Option FsPath) :
    (env.debugAssertions = true → env.cwd = some c →
      startupResolved env =
        some ⟨((pathParent c).getD c) ++ ["yaLLMa3API", "index.js"],
          InterpReq.nodeInterp⟩ ∧
      commandResolved true (some c) rdir re ae =
        .ok ⟨((pathParent c).getD c) ++ ["yaLLMa3API", "index.js"],
          InterpReq.nodeInterp⟩) ∧
    (env.debugAssertions = false → env.resourceDir = some rd →
      startupResolved env =
        some ⟨rd ++ ["bin", startupBinaryName env.targetOs], InterpReq.direct⟩ ∧
      commandResolved false cwd (some rd) true ae =
        .ok ⟨rd ++ ["yaLLMa3API", "index.js"], InterpReq.nodeInterp⟩) := by
  constructor
  · intro hdbg hcwd
    constructor
    · simp [startupResolved, startupResolve, hdbg, hcwd]
    · simp [commandResolved, resolveSidecarPath, Except.map]
  · intro hdbg hrd
    constructor
    · simp [startupResolved, startupResolve, hdbg, hrd]
    · cases ae <;> simp [commandResolved, resolveSidecarPath, Except.map]

/-- Witness for the amended C9: concrete development and packaged
environments. -/
theorem C9_build_mode_strategies_witness :
    startupResolved ⟨true, TargetOs.linux, some ["home"], none, none,
        none, none, none⟩ =
      some ⟨["yaLLMa3API", "index.js"], InterpReq.nodeInterp⟩ ∧
    startupResolved ⟨false, TargetOs.linux, none, some ["res"], none,
        none, none, none⟩ =
      some ⟨["res", "bin", "index-x86_64-unknown-linux-gnu"], InterpReq.direct⟩ :=
  ⟨((C9_build_mode_strategies ["home"] ["res"]
      ⟨true, TargetOs.linux, some ["home"], none, none, none, none, none⟩
      false false none none).1 rfl rfl).1,
   ((C9_build_mode_strategies ["home"] ["res"]
      ⟨false, TargetOs.linux, none, some ["res"], none, none, none, none⟩
      false false none none).2 rfl rfl).1⟩

/-- C1: the startup auto-start task contains the spawn block twice (lib.rs
lines 84-96 and 98-121); evaluated at an empty handle in a development
environment where both spawn syscalls succeed (pids 100 and 101), it issues
two spawn syscalls, stores only the second child, and leaks the first OS
process — contradicting "exactly one spawn syscall and no duplicate or
leaked OS process". -/
theorem C1_startup_double_spawn :
    (startupTask ⟨true, TargetOs.linux, some ["home"], none, some ["data"],
        some 100, some 101, none⟩ none).spawnSyscalls = 2 ∧
    (startupTask ⟨true, TargetOs.linux, some ["home"], none, some ["data"],
        some 100, some 101, none⟩ none).state = some 101 ∧
    (startupTask ⟨true, TargetOs.linux, some ["home"], none, some ["data"],
        some 100, some 101, none⟩ none).leakedPids = [100] :=
  ⟨rfl, rfl, rfl⟩

end Yallma3
